import Mathlib

/-!
Verification development for `bot.py`, a Telegram bot that watches the
pump.fun program on Solana, decodes token-creation events from program
logs, enriches them from off-chain sources and notifies a single user.

Python strings are embedded as `List Char` (`Str`), bytes as `List Nat`
with values below 256, dictionaries/JSON values as the inductive `PyVal`,
and code that can raise as `Except PyError`.  Each definition mirrors the
corresponding function of `bot.py`; external effects (HTTP responses, RPC
results, the wall clock) enter as explicit oracle values in `Env`.
-/

namespace PumpBot

/-- Python strings are modelled as lists of characters. -/
abbrev Str := List Char

/-- Exceptions that the modelled Python code can raise. -/
inductive PyError where
  | binasciiError
  | unicodeDecodeError
  | valueError
  | typeError
  | attributeError
  | keyError
  | indexError
deriving DecidableEq, Repr

/-- Whitespace for Python `str.strip` / `str.split()` (the `string.whitespace` set). -/
def pyIsSpace (c : Char) : Bool :=
  c = ' ' || c = '\t' || c = '\n' || c = '\r' || c = '\x0b' || c = '\x0c'

/-- ASCII lowercasing of one character, as Python `str.lower` acts on ASCII input. -/
def lowerChar (c : Char) : Char :=
  if 'A' ≤ c && c ≤ 'Z' then Char.ofNat (c.toNat + 32) else c

/-- Python `str.lower` (our inputs are ASCII). -/
def lowerStr (s : Str) : Str := s.map lowerChar

/-- Test whether `pat` occurs at the very start of `s`. -/
def listStarts (pat s : Str) : Bool :=
  match pat, s with
  | [], _ => true
  | _ :: _, [] => false
  | p :: ps, c :: cs => p = c && listStarts ps cs

/-- Python substring containment `pat in s`. -/
def strContains (s pat : Str) : Bool :=
  match s with
  | [] => pat.isEmpty
  | _ :: t => listStarts pat s || strContains t pat

/-- Python `str.strip()`: drop leading and trailing whitespace. -/
def pyStrip (s : Str) : Str :=
  ((s.dropWhile pyIsSpace).reverse.dropWhile pyIsSpace).reverse

/-- Worker for `splitOnStr`, structurally recursive on a fuel argument; the fuel
is an upper bound on the number of characters still to scan, so with fuel
`s.length` the zero-fuel fallback is never reached. -/
def splitOnStrGo (sep : Str) : Nat → Str → Str → List Str
  | _, [], acc => [acc.reverse]
  | 0, s, acc => [acc.reverse ++ s]
  | fuel + 1, c :: rest, acc =>
    if listStarts sep (c :: rest) then
      acc.reverse :: splitOnStrGo sep fuel ((c :: rest).drop sep.length) []
    else
      splitOnStrGo sep fuel rest (c :: acc)

/-- Python `s.split(sep)` for a non-empty separator string. -/
def splitOnStr (sep s : Str) : List Str :=
  splitOnStrGo sep s.length s []

/-- Worker for `pyWords`: split on whitespace, dropping empty pieces. -/
def pyWordsGo : Str → Str → List Str
  | [], acc => if acc.isEmpty then [] else [acc.reverse]
  | c :: rest, acc =>
    if pyIsSpace c then
      if acc.isEmpty then pyWordsGo rest [] else acc.reverse :: pyWordsGo rest []
    else pyWordsGo rest (c :: acc)

/-- Python `s.split()`: split on whitespace runs, no empty pieces. -/
def pyWords (s : Str) : List Str := pyWordsGo s []

/-- Python `''.join(logs)`. -/
def strJoin (xs : List Str) : Str := xs.foldr (· ++ ·) []

/-! ### Python values (JSON documents, dictionaries) -/

/-- Values manipulated by the Python code: JSON documents and dictionaries. -/
inductive PyVal where
  | none
  | bool (b : Bool)
  | int (n : Int)
  | float (q : ℚ)
  | str (s : Str)
  | list (xs : List PyVal)
  | dict (kvs : List (Str × PyVal))

instance : Inhabited PyVal := ⟨PyVal.none⟩

/-- Python truthiness of a value. -/
def pyTruthy : PyVal → Bool
  | .none => false
  | .bool b => b
  | .int n => n ≠ 0
  | .float q => q ≠ 0
  | .str s => !s.isEmpty
  | .list xs => !xs.isEmpty
  | .dict kvs => !kvs.isEmpty

/-- Lookup in an association list with `Str` keys. -/
def assocLookup (kvs : List (Str × PyVal)) (k : Str) : Option PyVal :=
  match kvs with
  | [] => Option.none
  | (k0, v) :: rest => if k0 = k then some v else assocLookup rest k

/-- Python `d.get(k, default)`; raises `AttributeError` when `d` is not a dict. -/
def pyGetD (v : PyVal) (k : Str) (default : PyVal) : Except PyError PyVal :=
  match v with
  | .dict kvs => .ok ((assocLookup kvs k).getD default)
  | _ => .error .attributeError

/-- Python `d[k]` on a dictionary; raises `KeyError` when absent, `TypeError` otherwise. -/
def pySubscript (v : PyVal) (k : Str) : Except PyError PyVal :=
  match v with
  | .dict kvs =>
    match assocLookup kvs k with
    | some w => .ok w
    | Option.none => .error .keyError
  | _ => .error .typeError

/-- Python `xs[0]` on a list; raises `IndexError` when empty, `TypeError` otherwise. -/
def pyIndexZero (v : PyVal) : Except PyError PyVal :=
  match v with
  | .list [] => .error .indexError
  | .list (x :: _) => .ok x
  | _ => .error .typeError

/-- Require a string value, as Python `pat in v` does before substring search. -/
def asStr (v : PyVal) : Except PyError Str :=
  match v with
  | .str s => .ok s
  | _ => .error .typeError

/-- Python `x or y` on values: the first operand when truthy, the second otherwise. -/
def pyOr (x y : PyVal) : PyVal := if pyTruthy x then x else y

/-! ### Bytes, base64 and UTF-8 -/

/-- Discriminator of the pump.fun `Create` instruction, `CREATE_DISC` in the source. -/
def CREATE_DISC : List Nat := [24, 30, 200, 40, 5, 28, 7, 119]

/-- Python slicing `b[i:j]` for non-negative indices (clamped, never raising). -/
def pySlice (b : List Nat) (i j : Nat) : List Nat := (b.drop i).take (j - i)

/-- Little-endian unsigned integer of a byte list, as `int.from_bytes(_, 'little')`. -/
def leU32 (bs : List Nat) : Nat := bs.foldr (fun b acc => b + 256 * acc) 0

/-- Value of a base64 alphabet character, if any. -/
def b64Val (c : Char) : Option Nat :=
  if 'A' ≤ c && c ≤ 'Z' then some (c.toNat - 'A'.toNat)
  else if 'a' ≤ c && c ≤ 'z' then some (c.toNat - 'a'.toNat + 26)
  else if '0' ≤ c && c ≤ '9' then some (c.toNat - '0'.toNat + 52)
  else if c = '+' then some 62
  else if c = '/' then some 63
  else Option.none

/-- Decode one base64 quad of characters into one to three bytes. -/
def b64Quad (a b c d : Char) : Except PyError (List Nat) :=
  match b64Val a, b64Val b with
  | some va, some vb =>
    if c = '=' then
      if d = '=' then .ok [va * 4 + vb / 16]
      else .error .binasciiError
    else
      match b64Val c with
      | some vc =>
        if d = '=' then .ok [va * 4 + vb / 16, (vb % 16) * 16 + vc / 4]
        else
          match b64Val d with
          | some vd => .ok [va * 4 + vb / 16, (vb % 16) * 16 + vc / 4, (vc % 4) * 64 + vd]
          | Option.none => .error .binasciiError
      | Option.none => .error .binasciiError
  | _, _ => .error .binasciiError

/-- Decode a list of base64 characters four at a time. -/
def b64Quads : Str → Except PyError (List Nat)
  | [] => .ok []
  | a :: b :: c :: d :: rest => do
    let bytes ← b64Quad a b c d
    let more ← b64Quads rest
    .ok (bytes ++ more)
  | _ => .error .binasciiError

/-- Model of CPython `base64.b64decode` with `validate=False`: characters outside
the alphabet and `'='` are discarded; a remaining length that is not a multiple
of four raises `binascii.Error` (incorrect padding), as does misplaced padding. -/
def b64decodePy (s : Str) : Except PyError (List Nat) :=
  b64Quads (s.filter (fun c => (b64Val c).isSome || c = '='))

/-- Decode a UTF-8 byte list to its code points; `none` exactly when CPython's
strict `bytes.decode('utf-8')` would raise `UnicodeDecodeError` (continuation
ranges checked, overlong encodings and surrogates rejected). -/
def utf8Cps : List Nat → Option (List Nat)
  | [] => some []
  | b :: r =>
    if b < 0x80 then (utf8Cps r).map (b :: ·)
    else if 0xC2 ≤ b && b ≤ 0xDF then
      match r with
      | c1 :: r1 =>
        if 0x80 ≤ c1 && c1 ≤ 0xBF then
          (utf8Cps r1).map (fun l => ((b - 0xC0) * 64 + (c1 - 0x80)) :: l)
        else Option.none
      | [] => Option.none
    else if 0xE0 ≤ b && b ≤ 0xEF then
      match r with
      | c1 :: c2 :: r2 =>
        if (0x80 ≤ c1 && c1 ≤ 0xBF) && (0x80 ≤ c2 && c2 ≤ 0xBF)
            && (b ≠ 0xE0 || 0xA0 ≤ c1) && (b ≠ 0xED || c1 ≤ 0x9F) then
          (utf8Cps r2).map (fun l => ((b - 0xE0) * 4096 + (c1 - 0x80) * 64 + (c2 - 0x80)) :: l)
        else Option.none
      | _ => Option.none
    else if 0xF0 ≤ b && b ≤ 0xF4 then
      match r with
      | c1 :: c2 :: c3 :: r3 =>
        if (0x80 ≤ c1 && c1 ≤ 0xBF) && (0x80 ≤ c2 && c2 ≤ 0xBF) && (0x80 ≤ c3 && c3 ≤ 0xBF)
            && (b ≠ 0xF0 || 0x90 ≤ c1) && (b ≠ 0xF4 || c1 ≤ 0x8F) then
          (utf8Cps r3).map
            (fun l =>
              ((b - 0xF0) * 262144 + (c1 - 0x80) * 4096 + (c2 - 0x80) * 64 + (c3 - 0x80)) :: l)
        else Option.none
      | _ => Option.none
    else Option.none

/-- Python `bytes.decode('utf-8')`: the decoded text, or `UnicodeDecodeError`. -/
def pyDecodeUtf8 (bs : List Nat) : Except PyError Str :=
  match utf8Cps bs with
  | some cps => .ok (cps.map Char.ofNat)
  | Option.none => .error .unicodeDecodeError

/-- Python `str.rstrip('\x00')`: drop trailing NUL characters. -/
def rstripNul (s : Str) : Str :=
  (s.reverse.dropWhile (fun c => c = Char.ofNat 0)).reverse

/-! ### The instruction decoder (`handle_create`, lines 120-130) -/

/-- Fields decoded from a `Create` instruction payload; `mint`/`dev` come later. -/
structure CreationFields where
  name : Str
  symbol : Str
  uriLen : Nat
  uri : Str
deriving DecidableEq, Repr

/-- Field parsing of `handle_create` (lines 125-130): check the discriminator,
then `data_bytes[8:40].decode('utf-8').rstrip('\x00')` for the name, the same
for the symbol on `[40:72)`, `int.from_bytes(data_bytes[72:76], 'little')` for
the URI length and `data_bytes[76:76+uri_len]` for the URI.  Python slicing
clamps silently; `decode` raises `UnicodeDecodeError` on invalid UTF-8, and a
mismatched discriminator returns `None`. -/
def decodeFields (data : List Nat) : Except PyError (Option CreationFields) :=
  if pySlice data 0 8 = CREATE_DISC then do
    let name ← pyDecodeUtf8 (pySlice data 8 40)
    let symbol ← pyDecodeUtf8 (pySlice data 40 72)
    let uriLen := leU32 (pySlice data 72 76)
    let uri ← pyDecodeUtf8 (pySlice data 76 (76 + uriLen))
    Except.ok (some ⟨rstripNul name, rstripNul symbol, uriLen, rstripNul uri⟩)
  else Except.ok Option.none

/-- The log-line marker selecting the payload line. -/
def PROGRAM_DATA_MARKER : Str := "Program data: ".toList

/-- Decoding step of `handle_create` (lines 120-130): pick the first log line
containing `"Program data: "` (none → the event is silently not a creation),
take the text after the marker, strip it, base64-decode it (`binascii.Error`
propagates) and parse the fields. -/
def decodePayload (logs : List Str) : Except PyError (Option CreationFields) :=
  match logs.filter (fun l => strContains l PROGRAM_DATA_MARKER) with
  | [] => Except.ok Option.none
  | l :: _ => do
    let b64 := pyStrip ((splitOnStr PROGRAM_DATA_MARKER l).getD 1 [])
    let data ← b64decodePy b64
    decodeFields data

/-! ### Enrichment fetchers -/

/-- Outcome of one HTTP request: a response with a status code and an optional
parsed JSON body (`none` when `r.json()` would raise), or a raised transport
exception. -/
inductive HttpOutcome where
  | resp (status : Nat) (body : Option PyVal)
  | exn

/-- `fetch_metadata` (lines 39-46): returns `r.json()` on status 200, `{}` on
any other status, and `{}` when the bare `except` catches anything. -/
def fetch_metadata : HttpOutcome → PyVal
  | .resp status body =>
    if status = 200 then
      match body with
      | some j => j
      | Option.none => .dict []
    else .dict []
  | .exn => .dict []

/-- `extract_socials` (lines 48-61): lowercase the description, scan its words
for `"t.me"` (gated by a `"t.me"`/`"telegram"` marker test) and for
`"discord.gg"`/`"discord.com"` (gated by a `"discord"` marker test), then let a
truthy `extensions` entry override either result.  The source returns the dict
`{"tg": tg, "discord": discord}`; we return the `(tg, discord)` pair.  The
function has no exception handler, so a non-string description or a non-dict
metadata value raises to the caller. -/
def extract_socials (metadata : PyVal) : Except PyError (PyVal × PyVal) := do
  let _ ← pyGetD metadata "external_url".toList (.str [])
  let descV ← pyGetD metadata "description".toList (.str [])
  let descS ← (match descV with
    | PyVal.str s => Except.ok s
    | _ => Except.error PyError.attributeError)
  let desc := lowerStr descS
  let tg0 : Str :=
    if strContains desc "t.me".toList || strContains desc "telegram".toList then
      ((pyWords desc).find? (fun w => strContains w "t.me".toList)).getD []
    else []
  let dc0 : Str :=
    if strContains desc "discord".toList then
      ((pyWords desc).find?
        (fun w => strContains w "discord.gg".toList || strContains w "discord.com".toList)).getD []
    else []
  let extensions ← pyGetD metadata "extensions".toList (.dict [])
  let extTg ← pyGetD extensions "telegram".toList PyVal.none
  let extDc ← pyGetD extensions "discord".toList PyVal.none
  Except.ok (pyOr extTg (.str tg0), pyOr extDc (.str dc0))

/-- The generator in `get_dex_info`: first `s["url"]` whose `s.get("type", "")`
contains `kind`, else `""`; `next` evaluates the condition lazily, and an
ill-typed element raises inside the enclosing `try`. -/
def findSocialUrl (socials : List PyVal) (kind : Str) : Except PyError PyVal :=
  match socials with
  | [] => .ok (.str [])
  | s :: rest => do
    let tV ← pyGetD s "type".toList (.str [])
    let t ← asStr tV
    if strContains t kind then pySubscript s "url".toList
    else findSocialUrl rest kind

/-- Body of the `try` block of `get_dex_info` (lines 65-80).  The status code is
never checked; `r.json()` failure or a transport error raises (and is caught by
the wrapper); when `data.get("pairs")` is falsy the block falls through
(`Option.none`).  On success the source builds the literal dict
`{"mc": fdv, "holders": holderCount, "tg": tg, "discord": dc, "price": priceUsd}`,
returned here as its entry list.  Iteration over a non-list `socials` value is
modelled as a `TypeError`. -/
def dexBody (o : HttpOutcome) : Except PyError (Option (List (Str × PyVal))) := do
  match o with
  | .exn => Except.error PyError.valueError
  | .resp _ body =>
    let data ← (match body with
      | some j => Except.ok j
      | Option.none => Except.error PyError.valueError)
    let pairsV ← pyGetD data "pairs".toList PyVal.none
    if pyTruthy pairsV then do
      let pairsV2 ← pySubscript data "pairs".toList
      let pair ← pyIndexZero pairsV2
      let infoV ← pyGetD pair "info".toList (.dict [])
      let socialsV ← pyGetD infoV "socials".toList (.list [])
      let socials ← (match socialsV with
        | PyVal.list xs => Except.ok xs
        | _ => Except.error PyError.typeError)
      let tg ← findSocialUrl socials "telegram".toList
      let dc ← findSocialUrl socials "discord".toList
      let mc ← pyGetD pair "fdv".toList (.int 0)
      let holders ← pyGetD pair "holderCount".toList (.str "?".toList)
      let price ← pyGetD pair "priceUsd".toList (.int 0)
      Except.ok (some
        [("mc".toList, mc), ("holders".toList, holders), ("tg".toList, tg),
          ("discord".toList, dc), ("price".toList, price)])
    else Except.ok Option.none

/-- Entries of the dict value `get_dex_info` hands back: empty on any caught
exception and on a missing/empty `pairs` array. -/
def dexEntries (o : HttpOutcome) : List (Str × PyVal) :=
  match dexBody o with
  | .ok (some kvs) => kvs
  | _ => []

/-- `get_dex_info` (lines 63-83): every path returns a dict — the populated one
from the `try` body, or `{}` after the bare `except` / the fall-through. -/
def get_dex_info (o : HttpOutcome) : PyVal := .dict (dexEntries o)

/-- Outcome of the RPC balance query in `dev_check`: the lamport balance, or a
raised exception. -/
inductive DevOutcome where
  | bal (lamports : Nat)
  | exn

/-- Result dict of `dev_check`: `{"sol": sol, "rich": sol > 5}`. -/
structure DevInfo where
  sol : ℚ
  rich : Bool
deriving DecidableEq

/-- `dev_check` (lines 85-91): `sol = bal.value / 1_000_000_000` and
`rich = sol > 5`; any exception degrades to `{"sol": 0, "rich": False}`.
Python's float division of a lamport integer by `1e9` is modelled by the exact
rational `mkRat n 1000000000`; for balances in the representable range the
float comparison against the threshold 5 agrees with the exact one. -/
def dev_check : DevOutcome → DevInfo
  | .bal n => ⟨mkRat n 1000000000, decide ((5 : ℚ) < mkRat n 1000000000)⟩
  | .exn => ⟨0, false⟩

/-! ### String formatting for the notification -/

/-- Decimal digits of a natural number. -/
def natDigits (n : Nat) : Str := Nat.toDigits 10 n

/-- Round `q * 10 ^ p` to the nearest integer, ties to even — the rounding of
CPython's fixed-point float formatting. -/
def roundHalfEven (q : ℚ) (p : Nat) : Int :=
  let n : Int := q.num * (10 : Int) ^ p
  let d : Int := (q.den : Int)
  let fl := Int.fdiv n d
  let r := n - fl * d
  if 2 * r < d then fl
  else if d < 2 * r then fl + 1
  else if fl % 2 = 0 then fl else fl + 1

/-- Left-pad with zeros to the given length. -/
def padZeros (s : Str) (len : Nat) : Str := List.replicate (len - s.length) '0' ++ s

/-- Python `format(x, '.pf')` for a rational `x`. -/
def formatFixed (q : ℚ) (p : Nat) : Str :=
  let scaled := roundHalfEven q p
  let sign : Str := if scaled < 0 then ['-'] else []
  let a := scaled.natAbs
  if p = 0 then sign ++ natDigits a
  else sign ++ natDigits (a / 10 ^ p) ++ ['.'] ++ padZeros (natDigits (a % 10 ^ p)) p

/-- Chunks of three characters. -/
def chunk3 : Str → List Str
  | [] => []
  | a :: b :: c :: r => [a, b, c] :: chunk3 r
  | r => [r]

/-- Join with comma separators. -/
def joinComma : List Str → Str
  | [] => []
  | [g] => g
  | g :: rest => g ++ [','] ++ joinComma rest

/-- Digits of a natural number grouped in threes with commas, as `format(n, ',')`. -/
def commaGroupNat (n : Nat) : Str :=
  joinComma (((chunk3 (natDigits n).reverse).map List.reverse).reverse)

/-- Comma-grouped rendering of an integer. -/
def commaGroupInt (i : Int) : Str :=
  (if i < 0 then ['-'] else []) ++ commaGroupNat i.natAbs

/-- Python `f"{v:,.0f}"`: renders numbers (bools are ints in Python), raises
`ValueError` on a string — the crash the `'?'` default runs into — and
`TypeError` on other non-numeric values. -/
def pyFormatCommaF0 : PyVal → Except PyError Str
  | .int n => .ok (commaGroupInt n)
  | .float q => .ok (commaGroupInt (roundHalfEven q 0))
  | .bool b => .ok (if b then ['1'] else ['0'])
  | .str _ => .error .valueError
  | _ => .error .typeError

/-- Python `f"{v:.8f}"` with the same typing behaviour as `pyFormatCommaF0`. -/
def pyFormatF8 : PyVal → Except PyError Str
  | .int n => .ok (formatFixed (n : ℚ) 8)
  | .float q => .ok (formatFixed q 8)
  | .bool b => .ok (formatFixed (if b then 1 else 0) 8)
  | .str _ => .error .valueError
  | _ => .error .typeError

/-- Python `str(v)` for the values interpolated without a format spec.  The
float, list and dict renderings approximate CPython's `repr` and are not
exercised by any theorem; the claims only interpolate strings and ints here. -/
def pyStr : PyVal → Str
  | .none => "None".toList
  | .bool b => if b then "True".toList else "False".toList
  | .int n => (if n < 0 then ['-'] else []) ++ natDigits n.natAbs
  | .float q => formatFixed q 6
  | .str s => s
  | .list _ => "[...]".toList
  | .dict _ => "<dict>".toList

/-! ### `handle_create`, commands and the listener loop -/

/-- The placeholder the source assigns instead of deriving the mint
(`ca = "PARSE_MINT_HERE"`, line 136). -/
def PLACEHOLDER_MINT : Str := "PARSE_MINT_HERE".toList

/-- One Telegram notification: recipient, Markdown text, and the inline button
URL built by `buy_keyboard`. -/
structure Message where
  recipient : Int
  text : Str
  buttonUrl : Str
deriving DecidableEq

/-- `buy_keyboard` (lines 93-97): the Jupiter URL parameterised by the mint. -/
def buy_keyboard_url (ca : Str) : Str := "https://jup.ag/tokens/".toList ++ ca

/-- External calls awaited by `handle_create`, in program order. -/
inductive CallTag where
  | getTransaction
  | fetchMeta
  | fetchDex
  | devBalance
  | sendMessage
deriving DecidableEq, Repr

/-- The process-wide mutable state: `seen_tokens` and `require_socials`. -/
structure BotState where
  seen : List Str
  requireSocials : Bool
deriving DecidableEq

/-- Oracle for the external world one event's pipeline interacts with:
`tx.value`'s account keys (`none` models a falsy `tx.value`), the two HTTP
outcomes, the balance query outcome, and the wall-clock string interpolated
into the message. -/
structure Env where
  txAccounts : Option (List Str)
  metaOutcome : HttpOutcome
  dexOutcome : HttpOutcome
  devOutcome : DevOutcome
  nowStr : Str

/-- Result of one `handle_create` run: the state after it (mutations made
before a raise persist), the message sent if any, the exception that
propagated to `ws_listener` if any, and the trace of external calls awaited,
in order. -/
structure HCResult where
  state : BotState
  sent : Option Message
  err : Option PyError
  calls : List CallTag

/-- `social_txt` (line 150): one line per present link. -/
def socialText (tg dc : PyVal) : Str :=
  (if pyTruthy tg then "📱 TG: ".toList ++ pyStr tg ++ ['\n'] else []) ++
  (if pyTruthy dc then "💬 Discord: ".toList ++ pyStr dc ++ ['\n'] else [])

/-- The `msg_txt` f-string (lines 152-162).  Fields are evaluated left to
right; `{dex.get('mc', '?'):,.0f}` and `{dex.get('price', 0):.8f}` are the two
format applications that can raise. -/
def buildMsgTxt (ca name symbol dev : Str) (di : DevInfo) (dexKvs : List (Str × PyVal))
    (rug socialTxt nowS : Str) : Except PyError Str := do
  let solS := formatFixed di.sol 2
  let richS : Str := if di.rich then "💰 Rich".toList else "Poor".toList
  let mcS ← pyFormatCommaF0 ((assocLookup dexKvs "mc".toList).getD (.str "?".toList))
  let hS := pyStr ((assocLookup dexKvs "holders".toList).getD (.str "?".toList))
  let pS ← pyFormatF8 ((assocLookup dexKvs "price".toList).getD (.int 0))
  Except.ok
    ("\n🆕 **NEW PUMP.FUN COIN WITH SOCIALS!**\nCA: `".toList ++ ca ++ "`\nName: ".toList
      ++ name ++ " (".toList ++ symbol ++ ")\nDev: `".toList ++ dev ++ "` (SOL: ".toList
      ++ solS ++ [' '] ++ richS ++ ")\nMC: $".toList ++ mcS ++ " | Holders: ".toList
      ++ hS ++ "\nPrice: $".toList ++ pS ++ ['\n'] ++ rug ++ ['\n'] ++ socialTxt
      ++ "\nTime: ".toList ++ nowS ++ "\n    ".toList)

/-- `handle_create` (lines 119-164).  Decode (exceptions propagate), resolve
the transaction (falsy `tx.value` discards; `accounts[0]` on an empty list
raises), assign the constant placeholder as `ca`, dedup against `seen_tokens`
and insert, await `fetch_metadata`, run `extract_socials` (can raise), await
`get_dex_info`, combine socials with market-data precedence, apply the socials
filter, await `dev_check`, build the message (formatting can raise) and send.
`dex.get("tg")`/`dex.get("discord")` never raise because `get_dex_info` always
returns a dict, so they are read directly off its entry list. -/
def handle_create (logs : List Str) (sig : Str) (yourId : Int) (env : Env)
    (st : BotState) : HCResult :=
  match decodePayload logs with
  | .error e => ⟨st, Option.none, some e, []⟩
  | .ok Option.none => ⟨st, Option.none, Option.none, []⟩
  | .ok (some f) =>
    match env.txAccounts with
    | Option.none => ⟨st, Option.none, Option.none, [.getTransaction]⟩
    | some [] => ⟨st, Option.none, some .indexError, [.getTransaction]⟩
    | some (dev :: _) =>
      let ca := PLACEHOLDER_MINT
      if st.seen.contains ca then ⟨st, Option.none, Option.none, [.getTransaction]⟩
      else
        let st1 : BotState := ⟨ca :: st.seen, st.requireSocials⟩
        let meta := fetch_metadata env.metaOutcome
        match extract_socials meta with
        | .error e => ⟨st1, Option.none, some e, [.getTransaction, .fetchMeta]⟩
        | .ok sm =>
          let dexKvs := dexEntries env.dexOutcome
          let tg := pyOr ((assocLookup dexKvs "tg".toList).getD PyVal.none) sm.1
          let dc := pyOr ((assocLookup dexKvs "discord".toList).getD PyVal.none) sm.2
          if st.requireSocials && !(pyTruthy tg || pyTruthy dc) then
            ⟨st1, Option.none, Option.none, [.getTransaction, .fetchMeta, .fetchDex]⟩
          else
            let di := dev_check env.devOutcome
            let rug : Str :=
              if di.rich then "🟢 Low risk".toList else "🔴 Watch dev".toList
            match buildMsgTxt ca f.name f.symbol dev di dexKvs rug (socialText tg dc)
                env.nowStr with
            | .error e =>
              ⟨st1, Option.none, some e,
                [.getTransaction, .fetchMeta, .fetchDex, .devBalance]⟩
            | .ok txt =>
              ⟨st1, some ⟨yourId, txt, buy_keyboard_url ca⟩, Option.none,
                [.getTransaction, .fetchMeta, .fetchDex, .devBalance, .sendMessage]⟩

/-- `/start` handler (lines 100-103): authorization-gated greeting, no state
change. -/
def cmd_start (yourId sender : Int) (st : BotState) : BotState × Option Str :=
  if sender ≠ yourId then (st, Option.none)
  else
    (st, some "🔥 Pump.fun Tracker ON! Only coins WITH TG/Discord.\n/socials toggle | /status".toList)

/-- `/status` handler (lines 105-109): authorization-gated report of the seen
count and filter mode, no state change. -/
def cmd_status (yourId sender : Int) (st : BotState) : BotState × Option Str :=
  if sender ≠ yourId then (st, Option.none)
  else
    (st, some ("Seen: ".toList ++ natDigits st.seen.length ++ "\nFilter: ".toList
      ++ (if st.requireSocials then "TG/Discord required".toList else "All".toList)))

/-- `/socials` handler (lines 111-116): authorization check first, then flip
`require_socials` and report the new mode. -/
def cmd_socials (yourId sender : Int) (st : BotState) : BotState × Option Str :=
  if sender ≠ yourId then (st, Option.none)
  else
    ({ st with requireSocials := !st.requireSocials },
      some ("Social filter: ".toList
        ++ (if !st.requireSocials then "ON (only TG/Disc)".toList else "OFF".toList)))

/-- The gate of `ws_listener` (line 179). -/
def INSTRUCTION_CREATE_MARKER : Str := "Instruction: Create".toList

/-- One external stimulus reaching the process: a log notification consumed by
`ws_listener`, or one of the three Telegram commands. -/
inductive Action where
  | event (logs : List Str) (sig : Str) (env : Env)
  | cmdStart (sender : Int)
  | cmdStatus (sender : Int)
  | cmdSocials (sender : Int)

/-- Apply one action to the shared state, collecting sent notifications.
Events pass through the `"Instruction: Create"` gate of `ws_listener` before
`handle_create` runs. -/
def stepAction (yourId : Int) (acc : BotState × List Message) (a : Action) :
    BotState × List Message :=
  match a with
  | .event logs sig env =>
    if strContains (strJoin logs) INSTRUCTION_CREATE_MARKER then
      let r := handle_create logs sig yourId env acc.1
      (r.state, acc.2 ++ r.sent.toList)
    else acc
  | .cmdStart sender => ((cmd_start yourId sender acc.1).1, acc.2)
  | .cmdStatus sender => ((cmd_status yourId sender acc.1).1, acc.2)
  | .cmdSocials sender => ((cmd_socials yourId sender acc.1).1, acc.2)

/-- Fold a whole arrival sequence.  In the real process an uncaught exception
kills the listener task and stops further events; processing every action here
only adds events, so upper bounds proved over all action lists cover every
real trace. -/
def runActions (yourId : Int) (acc : BotState × List Message) :
    List Action → BotState × List Message
  | [] => acc
  | a :: rest => runActions yourId (stepAction yourId acc a) rest

/-- Startup state: `seen_tokens = set()`, `require_socials = True`. -/
def initState : BotState := ⟨[], true⟩

/-! ### Concrete inputs used by witnesses and counterexamples -/

/-- Bytes of an ASCII string. -/
def strBytes (s : String) : List Nat := s.toList.map Char.toNat

/-- Right-pad a byte list with NULs to the given width. -/
def padBytes (n : Nat) (bs : List Nat) : List Nat := bs ++ List.replicate (n - bs.length) 0

/-- A well-formed `Create` payload: discriminator, name `"Foo"`, symbol
`"FOO"`, URI length 16, URI `"https://x/y.json"` (92 bytes). -/
def sampleBuf : List Nat :=
  CREATE_DISC ++ padBytes 32 (strBytes "Foo") ++ padBytes 32 (strBytes "FOO")
    ++ [16, 0, 0, 0] ++ strBytes "https://x/y.json"

/-- Base64 encoding of `sampleBuf`. -/
def SAMPLE_B64 : Str :=
  "GB7IKAUcB3dGb28AAAAAAAAAAAAAAAAAAAAAAAAAAAAAAAAAAAAAAEZPTwAAAAAAAAAAAAAAAAAAAAAAAAAAAAAAAAAAAAAAEAAAAGh0dHBzOi8veC95Lmpzb24=".toList

/-- A log batch carrying the well-formed payload. -/
def sampleLogs : List Str := [("Program data: ".toList ++ SAMPLE_B64)]

/-- The same batch with the `"Instruction: Create"` line the listener gates on. -/
def sampleLogsGated : List Str :=
  ["Program log: Instruction: Create".toList, ("Program data: ".toList ++ SAMPLE_B64)]

/-- Metadata document `{"extensions": {"telegram": "t.me/foo"}}`. -/
def sampleMetaDoc : PyVal :=
  .dict [("extensions".toList, .dict [("telegram".toList, .str "t.me/foo".toList)])]

/-- Environment for the C3 scenario: metadata and dev-risk succeed, the
market-data fetch raises. -/
def envMetaOnly : Env :=
  ⟨some ["DevAddr".toList], .resp 200 (some sampleMetaDoc), .exn, .bal 1000000000,
    "12:00 WAT".toList⟩

/-- Environment where both enrichment HTTP calls fail and the dev balance is 0. -/
def envAllFail : Env :=
  ⟨some ["DevAddr".toList], .exn, .exn, .bal 0, "12:00 WAT".toList⟩

/-- A DexScreener response document with one pair carrying an fdv and a
telegram social. -/
def sampleDexDoc : PyVal :=
  .dict [("pairs".toList, .list [.dict [("fdv".toList, .int 50000),
    ("info".toList, .dict [("socials".toList, .list [.dict
      [("type".toList, .str "telegram".toList), ("url".toList, .str "t.me/x".toList)]])])]])]

/-- Environment where the market-data fetch succeeds (and the metadata fetch
fails), so the full pipeline can notify. -/
def envDexOk : Env :=
  ⟨some ["DevAddr".toList], .exn, .resp 200 (some sampleDexDoc), .bal 6000000000,
    "12:00 WAT".toList⟩

/-- Metadata document built from a description string and an extensions dict,
the shape `extract_socials` expects. -/
def mkMeta (d : Str) (ext : List (Str × PyVal)) : PyVal :=
  .dict [("description".toList, .str d), ("extensions".toList, .dict ext)]

/-- Telegram handle derived from the free-text description per spec §4.4:
lowercase the text, and when a `"t.me"`/`"telegram"` marker is present take
the first whitespace-separated word containing `"t.me"`. -/
def descTelegram (d : Str) : Str :=
  let desc := lowerStr d
  if strContains desc "t.me".toList || strContains desc "telegram".toList then
    ((pyWords desc).find? (fun w => strContains w "t.me".toList)).getD []
  else []

/-- Discord handle derived from the free-text description per spec §4.4: when
a `"discord"` marker is present take the first word containing
`"discord.gg"` or `"discord.com"`. -/
def descDiscord (d : Str) : Str :=
  let desc := lowerStr d
  if strContains desc "discord".toList then
    ((pyWords desc).find?
      (fun w => strContains w "discord.gg".toList || strContains w "discord.com".toList)).getD []
  else []

/-- The three enrichment awaits among the call tags. -/
def isFetchCall : CallTag → Bool
  | .fetchMeta => true
  | .fetchDex => true
  | .devBalance => true
  | _ => false

/-- Every element of the list is the placeholder mint. -/
def OnlyPlaceholder (l : List Str) : Prop := ∀ m ∈ l, m = PLACEHOLDER_MINT

/-! ### Helper lemmas about `handle_create` -/

/-- Reduction of `Except` bind on a success value. -/
theorem except_bind_ok {ε α β : Type} (a : α) (f : α → Except ε β) :
    (Except.ok a >>= f) = f a := rfl

/-- Reduction of `Except` bind on an error value. -/
theorem except_bind_error {ε α β : Type} (e : ε) (f : α → Except ε β) :
    ((Except.error e : Except ε α) >>= f) = Except.error e := rfl

/-- Once the placeholder mint is in `seen_tokens`, `handle_create` sends
nothing and leaves the state untouched: every path either returns before the
dedup check or returns at it. -/
theorem handle_create_dup_noop (logs : List Str) (sig : Str) (yourId : Int) (env : Env)
    (st : BotState) (h : PLACEHOLDER_MINT ∈ st.seen) :
    (handle_create logs sig yourId env st).sent = Option.none ∧
    (handle_create logs sig yourId env st).state = st := by
  cases hdp : decodePayload logs with
  | error e => simp [handle_create, hdp]
  | ok o =>
    cases o with
    | none => simp [handle_create, hdp]
    | some f =>
      cases hacc : env.txAccounts with
      | none => simp [handle_create, hdp, hacc]
      | some accs =>
        cases accs with
        | nil => simp [handle_create, hdp, hacc]
        | cons dev rest => simp [handle_create, hdp, hacc, h]

/-- If `handle_create` sent a notification, the placeholder mint is in the
resulting seen set (it was inserted before any awaiting). -/
theorem handle_create_sent_mem (logs : List Str) (sig : Str) (yourId : Int) (env : Env)
    (st : BotState) (h : (handle_create logs sig yourId env st).sent.isSome = true) :
    PLACEHOLDER_MINT ∈ (handle_create logs sig yourId env st).state.seen := by
  cases hdp : decodePayload logs with
  | error e => simp [handle_create, hdp] at h
  | ok o =>
    cases o with
    | none => simp [handle_create, hdp] at h
    | some f =>
      cases hacc : env.txAccounts with
      | none => simp [handle_create, hdp, hacc] at h
      | some accs =>
        cases accs with
        | nil => simp [handle_create, hdp, hacc] at h
        | cons dev rest =>
          by_cases hseen : PLACEHOLDER_MINT ∈ st.seen
          · simp [handle_create, hdp, hacc, hseen] at h
          · cases hes : extract_socials (fetch_metadata env.metaOutcome) with
            | error e => simp [handle_create, hdp, hacc, hseen, hes] at h
            | ok sm =>
              have hc : st.seen.contains PLACEHOLDER_MINT = false := by simpa using hseen
              simp only [handle_create, hdp, hacc, hes, hc, Bool.false_eq_true, if_false]
              split
              · simp
              · split
                · simp
                · simp

/-- The seen set after `handle_create` is the old one, possibly with the
placeholder mint consed on. -/
theorem handle_create_seen_shape (logs : List Str) (sig : Str) (yourId : Int) (env : Env)
    (st : BotState) :
    (handle_create logs sig yourId env st).state.seen = st.seen ∨
    (handle_create logs sig yourId env st).state.seen = PLACEHOLDER_MINT :: st.seen := by
  cases hdp : decodePayload logs with
  | error e => simp [handle_create, hdp]
  | ok o =>
    cases o with
    | none => simp [handle_create, hdp]
    | some f =>
      cases hacc : env.txAccounts with
      | none => simp [handle_create, hdp, hacc]
      | some accs =>
        cases accs with
        | nil => simp [handle_create, hdp, hacc]
        | cons dev rest =>
          by_cases hseen : PLACEHOLDER_MINT ∈ st.seen
          · simp [handle_create, hdp, hacc, hseen]
          · cases hes : extract_socials (fetch_metadata env.metaOutcome) with
            | error e => simp [handle_create, hdp, hacc, hseen, hes]
            | ok sm =>
              have hc : st.seen.contains PLACEHOLDER_MINT = false := by simpa using hseen
              simp only [handle_create, hdp, hacc, hes, hc, Bool.false_eq_true, if_false]
              split
              · exact Or.inr rfl
              · split
                · exact Or.inr rfl
                · exact Or.inr rfl

/-- Successful UTF-8 decoding, lifted through `pyDecodeUtf8`. -/
theorem pyDecodeUtf8_ok {bs : List Nat} {cps : List Nat} (h : utf8Cps bs = some cps) :
    pyDecodeUtf8 bs = Except.ok (cps.map Char.ofNat) := by
  unfold pyDecodeUtf8
  rw [h]

/-! ### Claim theorems -/

/-- C1.  The claim says every decode failure (invalid base64, short buffer,
wrong discriminator, malformed field layout, invalid UTF-8) makes the decoding
step of `handle_create` return none without throwing, so the listener is not
crashed.  The code disagrees: `base64.b64decode` raises `binascii.Error` on
the payload `"AAAAA"` (first conjunct), an 8-byte-discriminator buffer
followed by the byte `0xFF` makes `bytes.decode('utf-8')` raise
`UnicodeDecodeError` (second conjunct) — and `ws_listener` awaits
`handle_create` with no exception handler, so both exceptions kill the
listener task.  Moreover a buffer shorter than the minimum header length is
not rejected when its first 8 bytes match the discriminator (third conjunct),
and a URI length field exceeding the remaining buffer silently truncates
instead of discarding (fourth conjunct). -/
theorem C1_decode_failures_raise_or_pass :
    decodePayload ["Program data: AAAAA".toList] = Except.error PyError.binasciiError ∧
    decodePayload ["Program data: GB7IKAUcB3f/".toList] =
      Except.error PyError.unicodeDecodeError ∧
    decodePayload ["Program data: GB7IKAUcB3c=".toList] =
      Except.ok (some ⟨[], [], 0, []⟩) ∧
    decodeFields (CREATE_DISC ++ List.replicate 64 0 ++ [100, 0, 0, 0]) =
      Except.ok (some ⟨[], [], 100, []⟩) :=
  ⟨rfl, rfl, rfl, rfl⟩

/-- C5.  For a well-formed payload — correct discriminator, byte values,
sufficient length for the URI field, and valid UTF-8 in all three text
slices — the decoder returns exactly: name = bytes [8,40) UTF-8-decoded with
trailing NULs stripped, symbol = bytes [40,72) under the same rule, uri
length = bytes [72,76) as a little-endian unsigned 32-bit integer, and
uri = bytes [76, 76+len) decoded and NUL-stripped.  The length conjuncts
show that under the sufficiency hypothesis the slices really are the full
claimed byte ranges. -/
theorem C5_wellformed_payload_decodes_exactly (data : List Nat)
    (hbytes : ∀ b ∈ data, b < 256)
    (hdisc : pySlice data 0 8 = CREATE_DISC)
    (hlen : 76 + leU32 (pySlice data 72 76) ≤ data.length)
    (nameCps symCps uriCps : List Nat)
    (hname : utf8Cps (pySlice data 8 40) = some nameCps)
    (hsym : utf8Cps (pySlice data 40 72) = some symCps)
    (huri : utf8Cps (pySlice data 76 (76 + leU32 (pySlice data 72 76))) = some uriCps) :
    decodeFields data =
      Except.ok (some
        ⟨rstripNul (nameCps.map Char.ofNat), rstripNul (symCps.map Char.ofNat),
          leU32 (pySlice data 72 76), rstripNul (uriCps.map Char.ofNat)⟩) ∧
    (pySlice data 8 40).length = 32 ∧
    (pySlice data 40 72).length = 32 ∧
    (pySlice data 76 (76 + leU32 (pySlice data 72 76))).length =
      leU32 (pySlice data 72 76) := by
  refine ⟨?_, ?_, ?_, ?_⟩
  · simp only [decodeFields, if_pos hdisc, pyDecodeUtf8_ok hname, pyDecodeUtf8_ok hsym,
      pyDecodeUtf8_ok huri, except_bind_ok]
  · simp only [pySlice, List.length_take, List.length_drop]
    omega
  · simp only [pySlice, List.length_take, List.length_drop]
    omega
  · generalize hL : leU32 (pySlice data 72 76) = L at hlen ⊢
    simp only [pySlice, List.length_take, List.length_drop]
    omega

set_option maxRecDepth 1000000 in
/-- Witness for C5 at the concrete sample payload: name `"Foo"`, symbol
`"FOO"`, URI length 16, URI `"https://x/y.json"`. -/
theorem C5_wellformed_witness :
    decodeFields sampleBuf =
      Except.ok (some ⟨"Foo".toList, "FOO".toList, 16, "https://x/y.json".toList⟩) :=
  (C5_wellformed_payload_decodes_exactly sampleBuf (by decide) (by decide) (by decide)
    (padBytes 32 (strBytes "Foo")) (padBytes 32 (strBytes "FOO"))
    (strBytes "https://x/y.json") (by decide) (by decide) (by decide)).1

/-- C6.  `dev_check` computes `solBalance` as the lamport balance divided by
`1e9` and `isRich` holds iff that balance strictly exceeds 5; in particular
exactly 5 SOL (5 000 000 000 lamports) gives `isRich = false` and 5.000001
SOL (5 000 001 000 lamports) gives `isRich = true`. -/
theorem C6_dev_risk_strict_threshold :
    (∀ n : Nat, (dev_check (.bal n)).sol = (n : ℚ) / 1000000000) ∧
    (∀ n : Nat, ((dev_check (.bal n)).rich = true ↔ 5 < (dev_check (.bal n)).sol)) ∧
    (dev_check (.bal 5000000000)).sol = 5 ∧
    (dev_check (.bal 5000000000)).rich = false ∧
    (dev_check (.bal 5000001000)).sol = mkRat 5000001 1000000 ∧
    (dev_check (.bal 5000001000)).rich = true := by
  refine ⟨?_, ?_, by decide, by decide, by decide, by decide⟩
  · intro n
    simp [dev_check, Rat.mkRat_eq_div]
  · intro n
    simp [dev_check, decide_eq_true_iff]

/-- Witness for C6: the boundary instance one lamport step above 5 SOL,
derived by applying the theorem. -/
theorem C6_threshold_witness :
    (dev_check (.bal 5000001000)).rich = true ↔ 5 < (dev_check (.bal 5000001000)).sol :=
  C6_dev_risk_strict_threshold.2.1 5000001000

/-- C10.  Each of the three command handlers checks the sender against the
single authorized id before doing anything: an unauthorized sender gets no
reply, `require_socials` is not flipped and `seen_tokens` is untouched. -/
theorem C10_unauthorized_commands_noop (yourId sender : Int) (st : BotState)
    (h : sender ≠ yourId) :
    cmd_start yourId sender st = (st, Option.none) ∧
    cmd_status yourId sender st = (st, Option.none) ∧
    cmd_socials yourId sender st = (st, Option.none) := by
  refine ⟨?_, ?_, ?_⟩ <;> simp [cmd_start, cmd_status, cmd_socials, h]

/-- Witness for C10 at concrete ids 42 (sender) and 123456789 (authorized). -/
theorem C10_unauthorized_witness :
    cmd_start 123456789 42 initState = (initState, Option.none) ∧
    cmd_status 123456789 42 initState = (initState, Option.none) ∧
    cmd_socials 123456789 42 initState = (initState, Option.none) :=
  C10_unauthorized_commands_noop 123456789 42 initState (by decide)

set_option maxRecDepth 1000000 in
/-- C3.  The claim says that when the market-data fetch fails while metadata
and dev-risk succeed and the socials filter passes, a notification is still
produced with market cap rendered `'?'` and price `0`.  The code disagrees:
with `dex = {}` the f-string field `{dex.get('mc', '?'):,.0f}` applies a float
format to the string `'?'` and raises `ValueError`, so no message is sent and
the exception propagates out of `handle_create`.  The conjuncts show the
scenario really went that far: the dev balance was fetched (so metadata,
market-data and dev-risk all ran and the filter passed via the
metadata-derived telegram link), the mint was recorded, yet `sent` is empty
and a `ValueError` escaped. -/
theorem C3_market_failure_crashes_notification :
    (handle_create sampleLogs "sig".toList 123456789 envMetaOnly initState).sent =
      Option.none ∧
    (handle_create sampleLogs "sig".toList 123456789 envMetaOnly initState).err =
      some PyError.valueError ∧
    (handle_create sampleLogs "sig".toList 123456789 envMetaOnly initState).calls =
      [.getTransaction, .fetchMeta, .fetchDex, .devBalance] ∧
    (handle_create sampleLogs "sig".toList 123456789 envMetaOnly initState).state.seen =
      [PLACEHOLDER_MINT] :=
  ⟨rfl, rfl, rfl, rfl⟩

/-- C2.  With `require_socials` on and no Telegram or Discord link found
(market-data and metadata combined), `handle_create` sends nothing but has
already inserted the event's mint into `seen_tokens`; consequently any later
event whose mint is in the seen set — in particular a duplicate of this one —
never notifies, whatever `require_socials` has been toggled to meanwhile. -/
theorem C2_no_socials_marks_seen_blocks_repeat
    (logs : List Str) (sig : Str) (yourId : Int) (env : Env) (st : BotState)
    (f : CreationFields) (dev : Str) (rest : List Str) (sm : PyVal × PyVal)
    (hrs : st.requireSocials = true)
    (hnew : PLACEHOLDER_MINT ∉ st.seen)
    (hdp : decodePayload logs = Except.ok (some f))
    (hacc : env.txAccounts = some (dev :: rest))
    (hes : extract_socials (fetch_metadata env.metaOutcome) = Except.ok sm)
    (htg : pyTruthy (pyOr ((assocLookup (dexEntries env.dexOutcome) "tg".toList).getD
      PyVal.none) sm.1) = false)
    (hdc : pyTruthy (pyOr ((assocLookup (dexEntries env.dexOutcome) "discord".toList).getD
      PyVal.none) sm.2) = false) :
    (handle_create logs sig yourId env st).sent = Option.none ∧
    (handle_create logs sig yourId env st).state.seen = PLACEHOLDER_MINT :: st.seen ∧
    (∀ logs2 sig2 yourId2 env2 st2, PLACEHOLDER_MINT ∈ st2.seen →
      (handle_create logs2 sig2 yourId2 env2 st2).sent = Option.none) := by
  have hc : st.seen.contains PLACEHOLDER_MINT = false := by simpa using hnew
  refine ⟨?_, ?_,
    fun logs2 sig2 yourId2 env2 st2 h2 =>
      (handle_create_dup_noop logs2 sig2 yourId2 env2 st2 h2).1⟩
  · simp only [handle_create, hdp, hacc, hes, hc, Bool.false_eq_true, if_false]
    rw [hrs, htg, hdc] <;> simp
  · simp only [handle_create, hdp, hacc, hes, hc, Bool.false_eq_true, if_false]
    rw [hrs, htg, hdc] <;> simp

set_option maxRecDepth 1000000 in
/-- Witness for C2: the sample event with both enrichment fetches failing (so
no socials anywhere) is not notified but marks the placeholder mint seen, and
a duplicate arriving after the filter has been toggled off still does not
notify. -/
theorem C2_no_socials_witness :
    (handle_create sampleLogs "s1".toList 1 envAllFail initState).sent = Option.none ∧
    (handle_create sampleLogs "s1".toList 1 envAllFail initState).state.seen =
      [PLACEHOLDER_MINT] ∧
    (handle_create sampleLogs "s2".toList 1 envAllFail
      ⟨[PLACEHOLDER_MINT], false⟩).sent = Option.none := by
  have h := C2_no_socials_marks_seen_blocks_repeat sampleLogs "s1".toList 1 envAllFail
    initState ⟨"Foo".toList, "FOO".toList, 16, "https://x/y.json".toList⟩
    "DevAddr".toList [] (.str [], .str [])
    rfl (by simp [initState]) rfl rfl rfl rfl rfl
  exact ⟨h.1, h.2.1,
    h.2.2 sampleLogs "s2".toList 1 envAllFail ⟨[PLACEHOLDER_MINT], false⟩ (by simp)⟩

/-- C7.  Each fetcher returns a plain value to its caller (their return types
carry no exception), degrading to its default on every failure: any non-200
status, an unparseable body or a transport exception gives `fetch_metadata`
`{}`; `get_dex_info` always hands back a dict, and gives `{}` on a transport
exception, an unparseable body, or a missing or empty `pairs` array; a failed
balance query gives `dev_check` zero SOL and `isRich = false`. -/
theorem C7_fetchers_degrade_to_defaults :
    (∀ (s : Nat) (b : Option PyVal), s ≠ 200 → fetch_metadata (.resp s b) = PyVal.dict []) ∧
    (∀ s : Nat, fetch_metadata (.resp s Option.none) = PyVal.dict []) ∧
    (fetch_metadata .exn = PyVal.dict []) ∧
    (∀ o : HttpOutcome, ∃ kvs, get_dex_info o = PyVal.dict kvs) ∧
    (get_dex_info .exn = PyVal.dict []) ∧
    (∀ s : Nat, get_dex_info (.resp s Option.none) = PyVal.dict []) ∧
    (∀ (s : Nat) (kvs : List (Str × PyVal)),
      assocLookup kvs "pairs".toList = Option.none ∨
        assocLookup kvs "pairs".toList = some (PyVal.list []) →
      get_dex_info (.resp s (some (.dict kvs))) = PyVal.dict []) ∧
    (dev_check .exn = ⟨0, false⟩) := by
  refine ⟨?_, ?_, rfl, fun o => ⟨dexEntries o, rfl⟩, rfl, fun s => rfl, ?_, rfl⟩
  · intro s b h
    simp [fetch_metadata, h]
  · intro s
    by_cases h : s = 200
    · subst h; rfl
    · simp [fetch_metadata, h]
  · intro s kvs h
    have hb : dexBody (.resp s (some (.dict kvs))) = Except.ok Option.none := by
      cases h with
      | inl h =>
        simp only [dexBody, pyGetD, except_bind_ok, h]
        simp [pyTruthy]
      | inr h =>
        simp only [dexBody, pyGetD, except_bind_ok, h]
        simp [pyTruthy]
    simp [get_dex_info, dexEntries, hb]

/-- Witness for C7: a 404 response degrades `fetch_metadata` to `{}`, and an
empty `pairs` array degrades `get_dex_info` to `{}`. -/
theorem C7_degrade_witness :
    fetch_metadata (.resp 404 Option.none) = PyVal.dict [] ∧
    get_dex_info (.resp 200 (some (.dict [("pairs".toList, PyVal.list [])]))) =
      PyVal.dict [] :=
  ⟨C7_fetchers_degrade_to_defaults.1 404 Option.none (by decide),
    C7_fetchers_degrade_to_defaults.2.2.2.2.2.2.1 200 [("pairs".toList, PyVal.list [])]
      (Or.inr rfl)⟩

/-- Evaluation of `extract_socials` on a well-shaped metadata document: the
extensions entries (when truthy) take precedence over the description-derived
handles. -/
theorem extract_socials_mkMeta (d : Str) (ext : List (Str × PyVal)) :
    extract_socials (mkMeta d ext) =
      Except.ok
        (pyOr ((assocLookup ext "telegram".toList).getD PyVal.none)
          (.str (descTelegram d)),
        pyOr ((assocLookup ext "discord".toList).getD PyVal.none)
          (.str (descDiscord d))) := rfl

/-- C8.  Social extraction scans the description for the Telegram and Discord
markers, and a truthy structured `extensions` entry takes precedence over the
description-derived value (first conjunct); with no extensions entries the
description-derived values are returned (second conjunct).  For the final
socials used by the filter and notifier, `dex.get("tg") or socials_meta["tg"]`
means the metadata-derived value is used when the market-data fetch failed
(third and fourth conjuncts) and a truthy market-data value takes precedence
(fifth conjunct). -/
theorem C8_socials_precedence :
    (∀ (d : Str) (ext : List (Str × PyVal)) (t : PyVal),
      assocLookup ext "telegram".toList = some t → pyTruthy t = true →
      ∃ dcv, extract_socials (mkMeta d ext) = Except.ok (t, dcv)) ∧
    (∀ (d : Str) (ext : List (Str × PyVal)),
      assocLookup ext "telegram".toList = Option.none →
      assocLookup ext "discord".toList = Option.none →
      extract_socials (mkMeta d ext) =
        Except.ok (.str (descTelegram d), .str (descDiscord d))) ∧
    (∀ sm : PyVal,
      pyOr ((assocLookup (dexEntries HttpOutcome.exn) "tg".toList).getD PyVal.none) sm
        = sm) ∧
    (∀ sm : PyVal,
      pyOr ((assocLookup (dexEntries HttpOutcome.exn) "discord".toList).getD PyVal.none) sm
        = sm) ∧
    (∀ (kvs : List (Str × PyVal)) (k : Str) (v sm : PyVal),
      assocLookup kvs k = some v → pyTruthy v = true →
      pyOr ((assocLookup kvs k).getD PyVal.none) sm = v) := by
  refine ⟨?_, ?_, fun sm => rfl, fun sm => rfl, ?_⟩
  · intro d ext t hl ht
    refine ⟨pyOr ((assocLookup ext "discord".toList).getD PyVal.none)
      (.str (descDiscord d)), ?_⟩
    rw [extract_socials_mkMeta, hl]
    simp [pyOr, ht]
  · intro d ext hl hd
    rw [extract_socials_mkMeta, hl, hd]
    simp [pyOr, pyTruthy]
  · intro kvs k v sm hl ht
    rw [hl]
    simp [pyOr, ht]

set_option maxRecDepth 1000000 in
/-- Witness for C8: a document with an empty extensions dict and the
description `"visit t.me/desc now"` yields the description-derived telegram
handle `"t.me/desc"` and no discord handle. -/
theorem C8_precedence_witness :
    extract_socials (mkMeta "visit t.me/desc now".toList []) =
      Except.ok (PyVal.str "t.me/desc".toList, PyVal.str []) :=
  C8_socials_precedence.2.1 "visit t.me/desc now".toList [] rfl rfl

set_option maxRecDepth 1000000 in
/-- C9, counterexample.  The claim says the three enrichment fetches run
concurrently and the pipeline waits for all three before applying the socials
filter.  At this concrete input the event passes dedup (the seen set grows)
and is rejected by the socials filter (nothing sent), yet the awaited-call
trace contains no dev-balance query at all: the pipeline applied the filter
without ever starting the dev-risk fetch, so it did not wait for all three
fetches — and the calls it did make were sequential awaits, in order. -/
theorem C9_filter_before_dev_counterexample :
    (handle_create sampleLogs "s".toList 1 envAllFail initState).calls =
      [CallTag.getTransaction, CallTag.fetchMeta, CallTag.fetchDex] ∧
    (handle_create sampleLogs "s".toList 1 envAllFail initState).sent = Option.none ∧
    (handle_create sampleLogs "s".toList 1 envAllFail initState).state.seen =
      [PLACEHOLDER_MINT] :=
  ⟨rfl, rfl, rfl⟩

/-- C9, amended.  The three enrichment awaits happen one after another in the
fixed order metadata, market data, dev risk (the fetch calls of every run are
an initial segment of that order); a notification implies all three ran; and
when the socials filter rejects an event (filter on, combined socials falsy),
the dev-risk fetch is never performed — the filter is applied after only the
first two fetches, not after all three. -/
theorem C9_fetches_sequential_filter_first (logs : List Str) (sig : Str) (yourId : Int)
    (env : Env) (st : BotState) :
    ((handle_create logs sig yourId env st).calls.filter isFetchCall = [] ∨
     (handle_create logs sig yourId env st).calls.filter isFetchCall =
       [CallTag.fetchMeta] ∨
     (handle_create logs sig yourId env st).calls.filter isFetchCall =
       [CallTag.fetchMeta, CallTag.fetchDex] ∨
     (handle_create logs sig yourId env st).calls.filter isFetchCall =
       [CallTag.fetchMeta, CallTag.fetchDex, CallTag.devBalance]) ∧
    ((handle_create logs sig yourId env st).sent.isSome = true →
      (handle_create logs sig yourId env st).calls.filter isFetchCall =
        [CallTag.fetchMeta, CallTag.fetchDex, CallTag.devBalance]) ∧
    (∀ sm : PyVal × PyVal,
      extract_socials (fetch_metadata env.metaOutcome) = Except.ok sm →
      st.requireSocials = true →
      pyTruthy (pyOr ((assocLookup (dexEntries env.dexOutcome) "tg".toList).getD
        PyVal.none) sm.1) = false →
      pyTruthy (pyOr ((assocLookup (dexEntries env.dexOutcome) "discord".toList).getD
        PyVal.none) sm.2) = false →
      CallTag.devBalance ∉ (handle_create logs sig yourId env st).calls) := by
  cases hdp : decodePayload logs with
  | error e =>
    refine ⟨Or.inl ?_, ?_, ?_⟩ <;> simp [handle_create, hdp, isFetchCall]
  | ok o =>
    cases o with
    | none =>
      refine ⟨Or.inl ?_, ?_, ?_⟩ <;> simp [handle_create, hdp, isFetchCall]
    | some f =>
      cases hacc : env.txAccounts with
      | none =>
        refine ⟨Or.inl ?_, ?_, ?_⟩ <;> simp [handle_create, hdp, hacc, isFetchCall]
      | some accs =>
        cases accs with
        | nil =>
          refine ⟨Or.inl ?_, ?_, ?_⟩ <;> simp [handle_create, hdp, hacc, isFetchCall]
        | cons dev rest =>
          by_cases hseen : PLACEHOLDER_MINT ∈ st.seen
          · refine ⟨Or.inl ?_, ?_, ?_⟩ <;>
              simp [handle_create, hdp, hacc, hseen, isFetchCall]
          · have hc : st.seen.contains PLACEHOLDER_MINT = false := by simpa using hseen
            cases hes : extract_socials (fetch_metadata env.metaOutcome) with
            | error e =>
              refine ⟨Or.inr (Or.inl ?_), ?_, ?_⟩ <;>
                simp [handle_create, hdp, hacc, hseen, hes, isFetchCall]
            | ok sm0 =>
              by_cases hflt : (st.requireSocials &&
                  !(pyTruthy (pyOr ((assocLookup (dexEntries env.dexOutcome)
                      "tg".toList).getD PyVal.none) sm0.1) ||
                    pyTruthy (pyOr ((assocLookup (dexEntries env.dexOutcome)
                      "discord".toList).getD PyVal.none) sm0.2))) = true
              · refine ⟨Or.inr (Or.inr (Or.inl ?_)), ?_, ?_⟩ <;>
                  (simp only [handle_create, hdp, hacc, hc, hes, Bool.false_eq_true,
                    if_false, hflt, if_true]
                   simp [isFetchCall])
              · refine ⟨Or.inr (Or.inr (Or.inr ?_)), ?_, ?_⟩
                · simp only [handle_create, hdp, hacc, hc, hes, Bool.false_eq_true,
                    if_false]
                  rw [if_neg hflt]
                  split <;> simp [isFetchCall]
                · simp only [handle_create, hdp, hacc, hc, hes, Bool.false_eq_true,
                    if_false]
                  rw [if_neg hflt]
                  split <;> simp [isFetchCall]
                · intro sm hsm hrs htg hdc
                  obtain rfl : sm0 = sm := Except.ok.inj hsm
                  rw [hrs, htg, hdc] at hflt
                  exact absurd rfl hflt

set_option maxRecDepth 1000000 in
/-- Witness for C9 at a successfully notifying input: all three fetches ran,
in order. -/
theorem C9_sequential_witness :
    (handle_create sampleLogs "s".toList 1 envDexOk initState).calls.filter isFetchCall =
      [CallTag.fetchMeta, CallTag.fetchDex, CallTag.devBalance] :=
  (C9_fetches_sequential_filter_first sampleLogs "s".toList 1 envDexOk initState).2.1 rfl

/-- One `stepAction` preserves the run invariant: only the placeholder mint is
ever recorded, at most one notification has been sent, and nothing was sent
while the placeholder is unseen. -/
theorem stepAction_preserves (yourId : Int) (acc : BotState × List Message) (a : Action)
    (h1 : OnlyPlaceholder acc.1.seen) (h2 : acc.2.length ≤ 1)
    (h3 : PLACEHOLDER_MINT ∉ acc.1.seen → acc.2 = []) :
    OnlyPlaceholder (stepAction yourId acc a).1.seen ∧
    (stepAction yourId acc a).2.length ≤ 1 ∧
    (PLACEHOLDER_MINT ∉ (stepAction yourId acc a).1.seen → (stepAction yourId acc a).2 = []) := by
  cases a with
  | cmdStart sender =>
    have hst : (cmd_start yourId sender acc.1).1 = acc.1 := by
      unfold cmd_start; split <;> rfl
    simp only [stepAction, hst]
    exact ⟨h1, h2, h3⟩
  | cmdStatus sender =>
    have hst : (cmd_status yourId sender acc.1).1 = acc.1 := by
      unfold cmd_status; split <;> rfl
    simp only [stepAction, hst]
    exact ⟨h1, h2, h3⟩
  | cmdSocials sender =>
    have hst : (cmd_socials yourId sender acc.1).1.seen = acc.1.seen := by
      unfold cmd_socials; split <;> rfl
    simp only [stepAction]
    rw [hst]
    exact ⟨h1, h2, h3⟩
  | event logs sig env =>
    by_cases hgate : strContains (strJoin logs) INSTRUCTION_CREATE_MARKER = true
    · simp only [stepAction, hgate, if_true]
      refine ⟨?_, ?_, ?_⟩
      · rcases handle_create_seen_shape logs sig yourId env acc.1 with hs | hs
        · rw [hs]; exact h1
        · rw [hs]
          intro m hm
          rcases List.mem_cons.mp hm with rfl | hmem
          · rfl
          · exact h1 m hmem
      · by_cases hmem : PLACEHOLDER_MINT ∈ acc.1.seen
        · have hnone := (handle_create_dup_noop logs sig yourId env acc.1 hmem).1
          simpa [hnone] using h2
        · have hemp := h3 hmem
          rw [hemp]
          cases (handle_create logs sig yourId env acc.1).sent <;> simp
      · intro hnot
        rcases handle_create_seen_shape logs sig yourId env acc.1 with hs | hs
        · rw [hs] at hnot
          have hemp := h3 hnot
          have hnone : (handle_create logs sig yourId env acc.1).sent = Option.none := by
            cases hx : (handle_create logs sig yourId env acc.1).sent with
            | none => rfl
            | some m =>
              have hmem2 := handle_create_sent_mem logs sig yourId env acc.1
                (by rw [hx]; rfl)
              rw [hs] at hmem2
              exact absurd hmem2 hnot
          rw [hemp, hnone]
          rfl
        · rw [hs] at hnot
          exact absurd (List.mem_cons_self PLACEHOLDER_MINT acc.1.seen) hnot
    · simp only [stepAction]
      rw [if_neg hgate]
      exact ⟨h1, h2, h3⟩

/-- The run invariant holds along any action sequence. -/
theorem runActions_preserves (yourId : Int) (acts : List Action) :
    ∀ acc : BotState × List Message,
    OnlyPlaceholder acc.1.seen → acc.2.length ≤ 1 →
    (PLACEHOLDER_MINT ∉ acc.1.seen → acc.2 = []) →
    OnlyPlaceholder (runActions yourId acc acts).1.seen ∧
    (runActions yourId acc acts).2.length ≤ 1 ∧
    (PLACEHOLDER_MINT ∉ (runActions yourId acc acts).1.seen →
      (runActions yourId acc acts).2 = []) := by
  induction acts with
  | nil => intro acc h1 h2 h3; exact ⟨h1, h2, h3⟩
  | cons a rest ih =>
    intro acc h1 h2 h3
    have h := stepAction_preserves yourId acc a h1 h2 h3
    exact ih _ h.1 h.2.1 h.2.2

/-- C4.  The resolver assigns the constant placeholder `"PARSE_MINT_HERE"` as
every event's mint, so every identifier ever recorded in `seen_tokens` is that
placeholder (second conjunct), and since dedup is keyed on it, any arrival
sequence from startup produces at most one notification over the whole
process lifetime (first conjunct); once some event has been resolved and
recorded, every later event is discarded at the dedup check — nothing sent,
state untouched — whatever token it concerns (third conjunct). -/
theorem C4_at_most_one_notification_ever (yourId : Int) (acts : List Action) :
    (runActions yourId (initState, []) acts).2.length ≤ 1 ∧
    OnlyPlaceholder (runActions yourId (initState, []) acts).1.seen ∧
    (∀ (logs : List Str) (sig : Str) (yourId2 : Int) (env : Env) (st : BotState),
      PLACEHOLDER_MINT ∈ st.seen →
      (handle_create logs sig yourId2 env st).sent = Option.none ∧
      (handle_create logs sig yourId2 env st).state = st) := by
  have h := runActions_preserves yourId acts (initState, [])
    (fun m hm => absurd hm (List.not_mem_nil m)) (by simp) (fun _ => rfl)
  exact ⟨h.2.1, h.1,
    fun logs sig yourId2 env st hm => handle_create_dup_noop logs sig yourId2 env st hm⟩

set_option maxRecDepth 1000000 in
/-- Witness for C4: a concrete three-action run (two gated create events
around a filter toggle) sends at most one notification, and a duplicate
event against a state that has already recorded the placeholder sends
nothing. -/
theorem C4_single_alert_witness :
    (runActions 1 (initState, [])
      [Action.event sampleLogsGated "s1".toList envDexOk,
        Action.cmdSocials 1,
        Action.event sampleLogsGated "s2".toList envDexOk]).2.length ≤ 1 ∧
    (handle_create sampleLogs "x".toList 1 envDexOk ⟨[PLACEHOLDER_MINT], true⟩).sent =
      Option.none :=
  ⟨(C4_at_most_one_notification_ever 1
      [Action.event sampleLogsGated "s1".toList envDexOk,
        Action.cmdSocials 1,
        Action.event sampleLogsGated "s2".toList envDexOk]).1,
    ((C4_at_most_one_notification_ever 1 []).2.2 sampleLogs "x".toList 1 envDexOk
      ⟨[PLACEHOLDER_MINT], true⟩ (by simp)).1⟩

end PumpBot
